import Mathlib

/-!
# Verification of the FreeForm whiteboard canvas interaction engine

A shallow embedding of the canvas interaction engine of the FreeForm
whiteboard (React/TypeScript frontend).  Coordinates, zoom factors and
timestamps are modelled as rationals; where the source computes
`Math.sqrt`, the embedding keeps the (rational) radicand and applies
`Real.sqrt` at the statement level.  JavaScript quirks that matter are
kept: `x || d` on numbers treats `0` as falsy, `!s` on strings treats
`""` as falsy, `Array.findIndex` returns the first matching index, and
`Map.set` replaces in place, preserving insertion order.
-/

namespace FreeForm

/-! ## Data model (`types.ts`) -/

/-- The `Tool` union type from `types.ts`. -/
inductive Tool where
  | pen
  | line
  | rectangle
  | circle
  | arrow
  | eraser
  | text
  | objectEraser
  | laser
  | lasso
  | select
  deriving DecidableEq, Repr

/-- The `LineType` union type from `types.ts`. -/
inductive LineType where
  | solid
  | dashed
  deriving DecidableEq, Repr

/-- A 2D point (`Point` in `types.ts`), with rational coordinates. -/
structure Pt where
  x : ℚ
  y : ℚ
  deriving DecidableEq, Repr

/-- The `DrawEvent` record from `types.ts`: one persisted (or laser) element.
Optional fields are `Option`s, mirroring the `?:` fields of the interface. -/
structure DrawEvent where
  type : String
  tool : Tool
  color : String
  lineWidth : ℚ
  lineType : LineType
  points : List Pt
  timestamp : ℚ
  id : String
  text : Option String := none
  fontSize : Option ℚ := none
  imageData : Option String := none
  imageWidth : Option ℚ := none
  imageHeight : Option ℚ := none
  deriving DecidableEq, Repr

/-- JavaScript truthiness of an optional string (`!element.text`):
`undefined` and `""` are falsy. -/
def strTruthy : Option String → Bool
  | none => false
  | some s => !(s == "")

/-- JavaScript `v || d` on an optional number: `undefined` and `0` fall back
to the default `d` (used for `imageWidth || 100`, `fontSize || 24`, ...). -/
def jsOrQ : Option ℚ → ℚ → ℚ
  | none, d => d
  | some v, d => if v = 0 then d else v

/-- `Math.min` on rationals, written so that the kernel can evaluate it on
concrete inputs. -/
def jsMin (a b : ℚ) : ℚ := if a ≤ b then a else b

/-- `Math.max` on rationals, written so that the kernel can evaluate it on
concrete inputs. -/
def jsMax (a b : ℚ) : ℚ := if a ≤ b then b else a

/-- The ephemeral wrapper stored in the laser decay map:
`{ element, opacity }`. -/
structure LaserEntry where
  element : DrawEvent
  opacity : ℚ
  deriving DecidableEq, Repr

/-! ## Element store and reconciler (`Whiteboard.tsx`) -/

/-- JavaScript `Map.set` on an insertion-ordered association list: replace
the value in place if the key exists, else append the pair. -/
def mapSet (m : List (String × LaserEntry)) (k : String) (v : LaserEntry) :
    List (String × LaserEntry) :=
  if m.any (fun kv => kv.1 == k) then
    m.map (fun kv => if kv.1 == k then (k, v) else kv)
  else
    m ++ [(k, v)]

/-- The `setElements` updater of the remote-draw handler (`Whiteboard.tsx`):
`findIndex` the element with the event's id; replace it in place when found,
else append the event. -/
def upsert (prev : List DrawEvent) (event : DrawEvent) : List DrawEvent :=
  match prev.findIdx? (fun el => el.id == event.id) with
  | some i => prev.set i event
  | none => prev ++ [event]

/-- The component state of `Whiteboard.tsx` that the reconciler and the
gesture handlers mutate (`elements`, `laserElements`, `selectedElementIds`,
`lassoPath`). -/
structure WhiteboardState where
  elements : List DrawEvent
  laserElements : List (String × LaserEntry)
  selectedElementIds : List String
  lassoPath : List Pt
  deriving Repr

/-- The `onRemoteDrawEvent` subscription handler: a laser event (by `type`
or by `tool`) goes into the decay map with opacity 1; any other draw event
is upserted into `elements`. -/
def onRemoteDrawEventHandler (st : WhiteboardState) (event : DrawEvent) :
    WhiteboardState :=
  if event.type = "laser" ∨ event.tool = Tool.laser then
    { st with laserElements := mapSet st.laserElements event.id ⟨event, 1⟩ }
  else
    { st with elements := upsert st.elements event }

/-- The `onRemoteDeleteEvent` subscription handler: filter the element out
by id. -/
def onRemoteDeleteEventHandler (st : WhiteboardState) (elementId : String) :
    WhiteboardState :=
  { st with elements := st.elements.filter (fun el => !(el.id == elementId)) }

/-- The `onClearCanvas` subscription handler: `setElements([])` and nothing
else.  Both the desktop and the gesture variant of the component install
exactly this handler, and the local Clear-All button only sends a `clear`
message that comes back through it. -/
def onClearCanvasHandler (st : WhiteboardState) : WhiteboardState :=
  { st with elements := [] }

/-- The commit branch of `handleMouseUp`: the freshly assembled `drawEvent`
(whose `tool` is the active tool) goes into the laser decay map with
opacity 1 when the active tool is the laser, else it is appended to
`elements`. -/
def commitGesture (st : WhiteboardState) (drawEvent : DrawEvent) :
    WhiteboardState :=
  if drawEvent.tool = Tool.laser then
    { st with laserElements := mapSet st.laserElements drawEvent.id ⟨drawEvent, 1⟩ }
  else
    { st with elements := st.elements ++ [drawEvent] }

/-! ## Ephemeral decay scheduler (the 50 ms laser fade interval) -/

/-- `fadeStart` from the fade interval effect: fading begins 1500 ms after
creation. -/
def fadeStart : ℚ := 1500

/-- `fadeDuration` from the fade interval effect: the fade lasts 1000 ms. -/
def fadeDuration : ℚ := 1000

/-- One decay-tick update of a single laser map entry, at wall-clock time
`now` (the body of the `newMap.forEach` in the fade interval; `age` is
inlined).  Entries older than `fadeStart + fadeDuration` are deleted;
entries in the fade window get opacity `1 - (age - fadeStart)/fadeDuration`;
younger entries are left alone. -/
def fadeTickEntry (now : ℚ) (e : LaserEntry) : Option LaserEntry :=
  if now - e.element.timestamp > fadeStart + fadeDuration then none
  else if now - e.element.timestamp > fadeStart then
    some { e with opacity := 1 - (now - e.element.timestamp - fadeStart) / fadeDuration }
  else some e

/-- One decay tick over the whole laser map.  (The `hasChanges` flag in the
source only avoids replacing the map object when nothing changed; the
resulting entries are the same.) -/
def fadeTick (now : ℚ) (m : List (String × LaserEntry)) :
    List (String × LaserEntry) :=
  m.filterMap (fun kv => (fadeTickEntry now kv.2).map (fun e => (kv.1, e)))

/-- The opacity (if any) a fresh laser entry (created with opacity 1) shows
after a decay tick at time `t`. -/
def laserOpacityAt (e : DrawEvent) (t : ℚ) : Option ℚ :=
  (fadeTickEntry t ⟨e, 1⟩).map LaserEntry.opacity

/-! ## Viewport transform and zoom paths -/

/-- Screen-to-world, from `getMousePos` / `getTouchPos`:
`(screen - offset) / zoom`. -/
def toWorld (screen offset : Pt) (zoom : ℚ) : Pt :=
  ⟨(screen.x - offset.x) / zoom, (screen.y - offset.y) / zoom⟩

/-- World-to-screen, from the render transform
(`ctx.translate(offset); ctx.scale(zoom)`): `world * zoom + offset`. -/
def toScreen (world offset : Pt) (zoom : ℚ) : Pt :=
  ⟨world.x * zoom + offset.x, world.y * zoom + offset.y⟩

/-- The offset update of `handleWheel` / `handleZoomChange` /
the touch pinch handler: with `scale = newZoom / zoom`,
`offset' = anchor - (anchor - offset) * scale`. -/
def zoomAtOffset (anchor offset : Pt) (zoom newZoom : ℚ) : Pt :=
  ⟨anchor.x - (anchor.x - offset.x) * (newZoom / zoom),
   anchor.y - (anchor.y - offset.y) * (newZoom / zoom)⟩

/-- The offset update of the `onPinch` gesture handler (gesture variant):
goes through the world point under the pinch origin,
`offset' = pinch - ((pinch - offset₀) / zoom₀) * newZoom`. -/
def pinchOffset (pinch initialOffset : Pt) (initialZoom newZoom : ℚ) : Pt :=
  ⟨pinch.x - ((pinch.x - initialOffset.x) / initialZoom) * newZoom,
   pinch.y - ((pinch.y - initialOffset.y) / initialZoom) * newZoom⟩

/-- `Math.min(Math.max(0.1, z), 5)`, the clamp used by the wheel and pinch
zoom paths. -/
def clampZoom (z : ℚ) : ℚ := min (max (1 / 10) z) 5

/-- `handleWheel`: multiply zoom by 0.9 or 1.1 depending on wheel direction,
then clamp. -/
def wheelZoom (zoom deltaY : ℚ) : ℚ :=
  clampZoom (zoom * (if deltaY > 0 then 9 / 10 else 11 / 10))

/-- The two-finger `handleTouchMove` pinch: multiply by the ratio of pinch
distances, then clamp. -/
def touchPinchZoom (zoom scale : ℚ) : ℚ := clampZoom (zoom * scale)

/-- The `onPinch` gesture handler: `initialZoom * movementScale`, clamped. -/
def gesturePinchZoom (initialZoom ms : ℚ) : ℚ := clampZoom (initialZoom * ms)

/-- `handleZoomChange(newZoom)` sets the zoom to its argument; it performs
no clamping of its own. -/
def handleZoomChange (newZoom : ℚ) : ℚ := newZoom

/-- The `+` zoom button: `handleZoomChange(Math.min(zoom * 1.2, 5))`. -/
def handleZoomIn (zoom : ℚ) : ℚ := handleZoomChange (min (zoom * (12 / 10)) 5)

/-- The `−` zoom button: `handleZoomChange(Math.max(zoom / 1.2, 0.1))`. -/
def handleZoomOut (zoom : ℚ) : ℚ := handleZoomChange (max (zoom / (12 / 10)) (1 / 10))

/-- The `⊙` reset button: `handleZoomChange(1)`. -/
def handleZoomReset : ℚ := handleZoomChange 1

/-- The `min="0.1"` attribute of the zoom slider input element. -/
def sliderMin : ℚ := 1 / 10

/-- The `max="5"` attribute of the zoom slider input element. -/
def sliderMax : ℚ := 5

/-- One zoom update, through any of the input paths of the component.  The
slider constructor carries the range restriction enforced by the slider
input element's `min`/`max` attributes. -/
inductive ZoomUpdate where
  | wheel (deltaY : ℚ)
  | touchPinch (scale : ℚ)
  | gesturePinch (ms : ℚ)
  | zoomInBtn
  | zoomOutBtn
  | resetBtn
  | slider (v : ℚ) (h1 : sliderMin ≤ v) (h2 : v ≤ sliderMax)

/-- The new zoom value produced by one update on the current `zoom`. -/
def applyZoomUpdate (zoom : ℚ) : ZoomUpdate → ℚ
  | .wheel d => wheelZoom zoom d
  | .touchPinch s => touchPinchZoom zoom s
  | .gesturePinch ms => gesturePinchZoom zoom ms
  | .zoomInBtn => handleZoomIn zoom
  | .zoomOutBtn => handleZoomOut zoom
  | .resetBtn => handleZoomReset
  | .slider v _ _ => handleZoomChange v

/-! ## Geometry kernel -/

/-- An axis-aligned bounding box as returned by `getElementBounds`. -/
structure Bounds where
  minX : ℚ
  minY : ℚ
  maxX : ℚ
  maxY : ℚ
  deriving DecidableEq, Repr

/-- `getElementBounds`: `null` on an element with no points; image box from
the anchor and the stored (or default 100×100) size; text box from the
anchor and the measured text width (the text-metrics provider is the
`measure` parameter, standing for `ctx.measureText` at the stored font
size); otherwise the coordinate-wise min/max over all points (the source
folds from ±Infinity, which over a nonempty list is the same fold from the
first point). -/
def getElementBounds (measure : String → ℚ → ℚ) (el : DrawEvent) :
    Option Bounds :=
  match el.points with
  | [] => none
  | p0 :: rest =>
    if el.imageData.isSome then
      some ⟨p0.x, p0.y, p0.x + jsOrQ el.imageWidth 100, p0.y + jsOrQ el.imageHeight 100⟩
    else if el.tool = Tool.text ∧ strTruthy el.text then
      some ⟨p0.x, p0.y - jsOrQ el.fontSize 24,
            p0.x + measure (el.text.getD "") (jsOrQ el.fontSize 24), p0.y⟩
    else
      some ⟨rest.foldl (fun acc p => jsMin acc p.x) p0.x,
            rest.foldl (fun acc p => jsMin acc p.y) p0.y,
            rest.foldl (fun acc p => jsMax acc p.x) p0.x,
            rest.foldl (fun acc p => jsMax acc p.y) p0.y⟩

/-- One step of the ray-casting loop of `isPointInPolygon`, for the edge
from vertex `pj` to vertex `pi`.  The division is guarded by the parity
test: it is only reached when `pi.y` and `pj.y` lie on opposite sides of
`p.y`, so `pj.y - pi.y ≠ 0` there. -/
def rayCastStep (p pi pj : Pt) (inside : Bool) : Bool :=
  if (¬((pi.y > p.y) ↔ (pj.y > p.y))) ∧
      (p.x < (pj.x - pi.x) * (p.y - pi.y) / (pj.y - pi.y) + pi.x) then
    !inside
  else inside

/-- `isPointInPolygon`: `false` for fewer than 3 vertices, else the
ray-casting parity loop over the edge pairs `(i, j)` with `j = i - 1`
wrapping to the last vertex. -/
def isPointInPolygon (p : Pt) (polygon : List Pt) : Bool :=
  if polygon.length < 3 then false
  else
    (List.range polygon.length).foldl
      (fun inside i =>
        rayCastStep p (polygon.getD i ⟨0, 0⟩)
          (polygon.getD ((i + polygon.length - 1) % polygon.length) ⟨0, 0⟩)
          inside)
      false

/-- The four corners of a bounding box, in the order the lasso test checks
them. -/
def boundsCorners (b : Bounds) : List Pt :=
  [⟨b.minX, b.minY⟩, ⟨b.maxX, b.minY⟩, ⟨b.minX, b.maxY⟩, ⟨b.maxX, b.maxY⟩]

/-- `isElementInLasso`: `false` for a lasso with fewer than 3 vertices or an
element without bounds; else true iff some bounding-box corner lies inside
the lasso polygon. -/
def isElementInLasso (measure : String → ℚ → ℚ) (el : DrawEvent)
    (lassoPolygon : List Pt) : Bool :=
  if lassoPolygon.length < 3 then false
  else
    match getElementBounds measure el with
    | none => false
    | some b => (boundsCorners b).any (fun c => isPointInPolygon c lassoPolygon)

/-- The squared distance between two points.  (`Math.sqrt` of this value is
the distance the source computes.) -/
def distSq (p q : Pt) : ℚ := (p.x - q.x) ^ 2 + (p.y - q.y) ^ 2

/-- `distanceToLine(point, lineStart, lineEnd)` up to the final `Math.sqrt`:
project onto the segment, with the projection parameter defaulting to `-1`
on a zero-length segment and clamped to `[0, 1]` by the branches, then
return the squared distance to the projection point. -/
def distanceToLineSq (point lineStart lineEnd : Pt) : ℚ :=
  let a := point.x - lineStart.x
  let b := point.y - lineStart.y
  let c := lineEnd.x - lineStart.x
  let d := lineEnd.y - lineStart.y
  let dot := a * c + b * d
  let lenSq := c * c + d * d
  let param := if lenSq ≠ 0 then dot / lenSq else -1
  let xx := if param < 0 then lineStart.x
    else if param > 1 then lineEnd.x
    else lineStart.x + param * c
  let yy := if param < 0 then lineStart.y
    else if param > 1 then lineEnd.y
    else lineStart.y + param * d
  (point.x - xx) ^ 2 + (point.y - yy) ^ 2

/-- `isPointNearElement(point, element, threshold)`, the generic/erase-mode
hit test (desktop variant).  Square-root comparisons of the source appear
as `Real.sqrt` of the rational radicand.  The `measure` parameter stands
for `ctx.measureText` at the given font size. -/
def isPointNearElement (measure : String → ℚ → ℚ) (point : Pt)
    (el : DrawEvent) (threshold : ℚ) : Prop :=
  if el.imageData.isSome then
    match el.points with
    | [] => False
    | pos :: _ =>
      point.x ≥ pos.x - threshold ∧
      point.x ≤ pos.x + jsOrQ el.imageWidth 100 + threshold ∧
      point.y ≥ pos.y - threshold ∧
      point.y ≤ pos.y + jsOrQ el.imageHeight 100 + threshold
  else if el.tool = Tool.text then
    if strTruthy el.text then
      match el.points with
      | [] => False
      | pos :: _ =>
        point.x ≥ pos.x - threshold ∧
        point.x ≤ pos.x + measure (el.text.getD "") (jsOrQ el.fontSize 24) + threshold ∧
        point.y ≥ pos.y - jsOrQ el.fontSize 24 - threshold ∧
        point.y ≤ pos.y + threshold
    else False
  else
    match el.points with
    | [] => False
    | p0 :: rest =>
      if el.tool = Tool.pen ∨ el.tool = Tool.eraser then
        ∃ p ∈ el.points,
          Real.sqrt (distSq p point : ℚ) < ((threshold + el.lineWidth : ℚ) : ℝ)
      else if el.tool = Tool.line ∨ el.tool = Tool.arrow then
        Real.sqrt (distanceToLineSq point p0 (rest.getLastD p0) : ℚ) <
          ((threshold + el.lineWidth : ℚ) : ℝ)
      else if el.tool = Tool.rectangle then
        (point.x ≥ jsMin p0.x (rest.getLastD p0).x - threshold ∧
         point.x ≤ jsMax p0.x (rest.getLastD p0).x + threshold ∧
         point.y ≥ jsMin p0.y (rest.getLastD p0).y - threshold ∧
         point.y ≤ jsMax p0.y (rest.getLastD p0).y + threshold) ∧
        (point.x ≤ jsMin p0.x (rest.getLastD p0).x + threshold ∨
         point.x ≥ jsMax p0.x (rest.getLastD p0).x - threshold ∨
         point.y ≤ jsMin p0.y (rest.getLastD p0).y + threshold ∨
         point.y ≥ jsMax p0.y (rest.getLastD p0).y - threshold)
      else if el.tool = Tool.circle then
        |Real.sqrt (distSq (rest.getLastD p0) p0 : ℚ) -
            Real.sqrt (distSq point p0 : ℚ)| <
          ((threshold + el.lineWidth : ℚ) : ℝ)
      else False

/-! ## Sample data for witnesses and counterexamples -/

/-- Sample stroke element with id `"a"`. -/
def evA : DrawEvent :=
  { type := "draw", tool := Tool.pen, color := "#000000", lineWidth := 4,
    lineType := LineType.solid, points := [⟨0, 0⟩, ⟨1, 1⟩], timestamp := 0,
    id := "a" }

/-- A re-draw of id `"a"` with different points. -/
def evA2 : DrawEvent :=
  { type := "draw", tool := Tool.pen, color := "#FF0000", lineWidth := 2,
    lineType := LineType.solid, points := [⟨5, 5⟩], timestamp := 10,
    id := "a" }

/-- Sample stroke element with id `"b"`. -/
def evB : DrawEvent :=
  { type := "draw", tool := Tool.line, color := "#0000FF", lineWidth := 4,
    lineType := LineType.dashed, points := [⟨0, 0⟩, ⟨2, 3⟩], timestamp := 5,
    id := "b" }

/-- Sample component state holding only `evA`. -/
def stA : WhiteboardState :=
  { elements := [evA], laserElements := [], selectedElementIds := [],
    lassoPath := [] }

/-- Sample laser element created at `t0 = 0`. -/
def laserA : DrawEvent :=
  { type := "laser", tool := Tool.laser, color := "#FF0000", lineWidth := 2,
    lineType := LineType.solid, points := [⟨0, 0⟩], timestamp := 0,
    id := "l1" }

/-- Sample laser element created at `t0 = 100`. -/
def laserB : DrawEvent :=
  { type := "laser", tool := Tool.laser, color := "#FF0000", lineWidth := 2,
    lineType := LineType.solid, points := [⟨1, 1⟩], timestamp := 100,
    id := "l2" }

/-- Sample laser element created at `t0 = 50`. -/
def laserC : DrawEvent :=
  { type := "laser", tool := Tool.laser, color := "#FF0000", lineWidth := 2,
    lineType := LineType.solid, points := [⟨2, 2⟩], timestamp := 50,
    id := "l3" }

/-- Sample state with a nonempty selection and an in-flight lasso path. -/
def stSel : WhiteboardState :=
  { elements := [evA], laserElements := [],
    selectedElementIds := ["a"], lassoPath := [⟨1, 2⟩] }

/-- A rectangle element over the box `[0,10] × [0,10]`. -/
def rectBig : DrawEvent :=
  { type := "draw", tool := Tool.rectangle, color := "#000000", lineWidth := 2,
    lineType := LineType.solid, points := [⟨0, 0⟩, ⟨10, 10⟩], timestamp := 0,
    id := "r1" }

/-- A small rectangle element over the box `[4,6] × [3,4]`. -/
def rectSmall : DrawEvent :=
  { type := "draw", tool := Tool.rectangle, color := "#000000", lineWidth := 2,
    lineType := LineType.solid, points := [⟨4, 3⟩, ⟨6, 4⟩], timestamp := 0,
    id := "r2" }

/-- A triangular lasso that contains `rectSmall`. -/
def triBig : List Pt := [⟨0, 0⟩, ⟨10, 0⟩, ⟨5, 10⟩]

/-- A small triangular lasso strictly inside the bounds of `rectBig`. -/
def triSmall : List Pt := [⟨4, 4⟩, ⟨6, 4⟩, ⟨5, 6⟩]

/-- A trivial text-metrics function for witnesses that never reach the text
branch. -/
def noMeasure : String → ℚ → ℚ := fun _ _ => 0

/-! ## Helper lemmas about `upsert` -/

/-- Setting a list index to the value already there is the identity. -/
lemma list_set_self {α : Type _} (l : List α) (i : Nat) (h : i < l.length) :
    l.set i l[i] = l := by
  induction l generalizing i with
  | nil => simp at h
  | cons x xs ih =>
    cases i with
    | zero => rfl
    | succ j =>
      simp only [List.set_cons_succ, List.getElem_cons_succ]
      rw [ih j (by simpa using h)]

lemma upsert_of_found {prev : List DrawEvent} {event : DrawEvent} {i : Nat}
    (h : prev.findIdx? (fun el => el.id == event.id) = some i) :
    upsert prev event = prev.set i event := by
  simp only [upsert, h]

lemma upsert_of_not_found {prev : List DrawEvent} {event : DrawEvent}
    (h : prev.findIdx? (fun el => el.id == event.id) = none) :
    upsert prev event = prev ++ [event] := by
  simp only [upsert, h]

lemma handler_elements_nonlaser (st : WhiteboardState) (event : DrawEvent)
    (h1 : event.type ≠ "laser") (h2 : event.tool ≠ Tool.laser) :
    (onRemoteDrawEventHandler st event).elements = upsert st.elements event := by
  simp only [onRemoteDrawEventHandler]
  rw [if_neg]
  rintro (h | h)
  · exact h1 h
  · exact h2 h

/-- If some element of `prev` carries the event's id, the upsert replaces
the first such element in place and keeps the length. -/
lemma upsert_replace (prev : List DrawEvent) (event : DrawEvent)
    (hex : ∃ el ∈ prev, el.id = event.id) :
    (upsert prev event).length = prev.length ∧
      ∃ i, ∃ h : i < prev.length, (prev.get ⟨i, h⟩).id = event.id ∧
        upsert prev event = prev.set i event := by
  obtain ⟨el, hmem, hid⟩ := hex
  have hsome : prev.findIdx? (fun el => el.id == event.id) =
      some (prev.findIdx (fun el => el.id == event.id)) := by
    apply List.findIdx?_eq_some_of_exists
    exact ⟨el, hmem, by simpa using hid⟩
  obtain ⟨hlt, hp, -⟩ := List.findIdx?_eq_some_iff_getElem.mp hsome
  refine ⟨?_, prev.findIdx (fun el => el.id == event.id), hlt, ?_, ?_⟩
  · rw [upsert_of_found hsome, List.length_set]
  · simpa using hp
  · exact upsert_of_found hsome

lemma upsert_append (prev : List DrawEvent) (event : DrawEvent)
    (hnone : ∀ el ∈ prev, el.id ≠ event.id) :
    upsert prev event = prev ++ [event] ∧
      (upsert prev event).length = prev.length + 1 := by
  have h : prev.findIdx? (fun el => el.id == event.id) = none := by
    rw [List.findIdx?_eq_none_iff]
    intro x hx
    simpa using hnone x hx
  refine ⟨upsert_of_not_found h, ?_⟩
  rw [upsert_of_not_found h, List.length_append, List.length_cons, List.length_nil]

/-! ## C1, C10: the remote-draw reconciler -/

/-- C1: upsert semantics of the remote-draw reconciler: for a non-laser draw
event, if an element with the event's id is already present the handler
replaces that element in place (length unchanged); if no element has that id
the event is appended (length + 1). -/
theorem remote_draw_upsert_semantics (st : WhiteboardState) (event : DrawEvent)
    (h1 : event.type ≠ "laser") (h2 : event.tool ≠ Tool.laser) :
    ((∃ el ∈ st.elements, el.id = event.id) →
      ((onRemoteDrawEventHandler st event).elements).length = st.elements.length ∧
      ∃ i, ∃ h : i < st.elements.length,
        (st.elements.get ⟨i, h⟩).id = event.id ∧
        (onRemoteDrawEventHandler st event).elements = st.elements.set i event) ∧
    ((∀ el ∈ st.elements, el.id ≠ event.id) →
      (onRemoteDrawEventHandler st event).elements = st.elements ++ [event] ∧
      ((onRemoteDrawEventHandler st event).elements).length = st.elements.length + 1) := by
  rw [handler_elements_nonlaser st event h1 h2]
  exact ⟨upsert_replace st.elements event, upsert_append st.elements event⟩

/-- Witness for C1: replacing id `"a"` in `[evA]` keeps length 1; inserting
id `"b"` appends. -/
theorem remote_draw_upsert_semantics_witness :
    ((onRemoteDrawEventHandler stA evA2).elements).length = stA.elements.length ∧
    (onRemoteDrawEventHandler stA evB).elements = stA.elements ++ [evB] :=
  ⟨((remote_draw_upsert_semantics stA evA2 (by decide) (by decide)).1
      ⟨evA, by simp [stA], rfl⟩).1,
   ((remote_draw_upsert_semantics stA evB (by decide) (by decide)).2
      (by intro el hel; simp [stA] at hel; subst hel; decide)).1⟩

/-- C10: the remote-draw reconciler preserves id uniqueness: if the ids of
`st.elements` are pairwise distinct, so are the ids after handling any
non-laser draw event. -/
theorem remote_draw_preserves_id_nodup (st : WhiteboardState) (event : DrawEvent)
    (h1 : event.type ≠ "laser") (h2 : event.tool ≠ Tool.laser)
    (hnd : (st.elements.map DrawEvent.id).Nodup) :
    (((onRemoteDrawEventHandler st event).elements).map DrawEvent.id).Nodup := by
  rw [handler_elements_nonlaser st event h1 h2]
  cases hfind : st.elements.findIdx? (fun el => el.id == event.id) with
  | none =>
    rw [upsert_of_not_found hfind]
    have hnotin : event.id ∉ st.elements.map DrawEvent.id := by
      rw [List.findIdx?_eq_none_iff] at hfind
      intro hmem
      obtain ⟨el, hel, hid⟩ := List.mem_map.mp hmem
      have := hfind el hel
      simp [hid] at this
    rw [List.map_append]
    exact List.Nodup.append hnd (List.nodup_singleton _)
      (by simpa [List.disjoint_singleton] using hnotin)
  | some i =>
    rw [upsert_of_found hfind]
    obtain ⟨hlt, hp, -⟩ := List.findIdx?_eq_some_iff_getElem.mp hfind
    have hid : st.elements[i].id = event.id := by simpa using hp
    rw [List.map_set]
    have : (st.elements.map DrawEvent.id).set i event.id =
        st.elements.map DrawEvent.id := by
      have hlt' : i < (st.elements.map DrawEvent.id).length := by simpa using hlt
      have hget : (st.elements.map DrawEvent.id)[i] = event.id := by
        rw [List.getElem_map]
        exact hid
      calc (st.elements.map DrawEvent.id).set i event.id
          = (st.elements.map DrawEvent.id).set i
              ((st.elements.map DrawEvent.id)[i]) := by rw [hget]
        _ = st.elements.map DrawEvent.id := list_set_self _ i hlt'
    rw [this]
    exact hnd

/-- Witness for C10: handling `evA2` (same id) and `evB` (fresh id) on the
one-element state keeps the ids pairwise distinct. -/
theorem remote_draw_preserves_id_nodup_witness :
    (((onRemoteDrawEventHandler stA evA2).elements).map DrawEvent.id).Nodup ∧
    (((onRemoteDrawEventHandler stA evB).elements).map DrawEvent.id).Nodup :=
  ⟨remote_draw_preserves_id_nodup stA evA2 (by decide) (by decide)
      (by simp [stA]),
   remote_draw_preserves_id_nodup stA evB (by decide) (by decide)
      (by simp [stA])⟩

/-! ## C2: the ephemeral decay timeline -/

/-- Counterexample to C2 as stated: a decay tick landing exactly at
`t = t0 + 2500` ms does **not** remove the entry — the `age >
fadeStart + fadeDuration` guard is strict — it sets its opacity to 0. -/
theorem laser_decay_boundary_counterexample :
    fadeTickEntry 2500 ⟨laserA, 1⟩ = some ⟨laserA, 0⟩ := by
  norm_num [fadeTickEntry, fadeStart, fadeDuration, laserA]

/-- C2 (amended): a laser entry created at `t0` observed on a decay tick at
time `t` has opacity 1 for `t < t0 + 1500`; its opacity is strictly
decreasing as `t` ranges over `t0 + 1500 .. t0 + 2500`; at exactly
`t = t0 + 2500` it is still present with opacity 0; and it is absent for
every `t > t0 + 2500`. -/
theorem laser_decay_timeline (e : DrawEvent) (t0 : ℚ) (hts : e.timestamp = t0) :
    (∀ t : ℚ, t < t0 + fadeStart → laserOpacityAt e t = some 1) ∧
    (∀ t1 t2 : ℚ, t0 + fadeStart ≤ t1 → t1 < t2 →
      t2 ≤ t0 + fadeStart + fadeDuration →
      ∀ o1 o2 : ℚ, laserOpacityAt e t1 = some o1 →
        laserOpacityAt e t2 = some o2 → o2 < o1) ∧
    laserOpacityAt e (t0 + fadeStart + fadeDuration) = some 0 ∧
    (∀ t : ℚ, t0 + fadeStart + fadeDuration < t → laserOpacityAt e t = none) := by
  have hfs : fadeStart = 1500 := rfl
  have hfd : fadeDuration = 1000 := rfl
  refine ⟨?_, ?_, ?_, ?_⟩
  · intro t ht
    simp only [laserOpacityAt, fadeTickEntry, hts, hfs, hfd] at *
    rw [if_neg (by linarith), if_neg (by linarith)]
    rfl
  · intro t1 t2 h1 h12 h2 o1 o2 ho1 ho2
    simp only [laserOpacityAt, fadeTickEntry, hts, hfs, hfd] at ho1 ho2 ⊢
    rw [if_neg (by linarith), if_pos (by linarith)] at ho2
    simp only [Option.map_some', Option.some.injEq] at ho2
    by_cases hc : t1 - t0 > 1500
    · rw [if_neg (by linarith), if_pos hc] at ho1
      simp only [Option.map_some', Option.some.injEq] at ho1
      subst ho1 ho2
      linarith
    · rw [if_neg (by linarith), if_neg hc] at ho1
      simp only [Option.map_some', Option.some.injEq] at ho1
      subst ho1 ho2
      linarith
  · simp only [laserOpacityAt, fadeTickEntry, hts, hfs, hfd]
    rw [if_neg (by linarith), if_pos (by linarith)]
    simp only [Option.map_some', Option.some.injEq]
    ring_nf
  · intro t ht
    simp only [laserOpacityAt, fadeTickEntry, hts, hfs, hfd] at *
    rw [if_pos (by linarith)]
    rfl

/-- Witness for C2 (amended), on `laserB` (created at `t0 = 100`): opacity 1
at `t = 200`; opacity drops from 9/10 at `t = 1700` to 8/10 at `t = 1800`;
opacity 0 at `t = 2600`; gone at `t = 2700`. -/
theorem laser_decay_timeline_witness :
    laserOpacityAt laserB 200 = some 1 ∧
    ((8 : ℚ) / 10 < 9 / 10) ∧
    laserOpacityAt laserB (100 + fadeStart + fadeDuration) = some 0 ∧
    laserOpacityAt laserB 2700 = none :=
  ⟨(laser_decay_timeline laserB 100 rfl).1 200 (by norm_num [fadeStart]),
   (laser_decay_timeline laserB 100 rfl).2.1 1700 1800
      (by norm_num [fadeStart]) (by norm_num)
      (by norm_num [fadeStart, fadeDuration]) (9 / 10) (8 / 10)
      (by norm_num [laserOpacityAt, fadeTickEntry, fadeStart, fadeDuration, laserB])
      (by norm_num [laserOpacityAt, fadeTickEntry, fadeStart, fadeDuration, laserB]),
   (laser_decay_timeline laserB 100 rfl).2.2.1,
   (laser_decay_timeline laserB 100 rfl).2.2.2 2700
      (by norm_num [fadeStart, fadeDuration])⟩

/-! ## C8: laser elements are never persisted -/

/-- Counterexample to C8's removal clause as stated: at a tick landing
exactly at age 2500 ms the entry's opacity reaches 0, yet the entry is kept
in the decay map (it is only deleted when the age strictly exceeds
`fadeStart + fadeDuration`). -/
theorem laser_opacity_zero_retained_counterexample :
    fadeTickEntry 2550 ⟨laserC, 1⟩ = some ⟨laserC, 0⟩ := by
  norm_num [fadeTickEntry, fadeStart, fadeDuration, laserC]

/-- C8 (amended): committing a laser-tool gesture and receiving a remote
laser event both write the element only into the ephemeral decay map (with
opacity 1) and never touch the persistent element list; and an entry is
removed by the decay tick exactly when its computed opacity would be
negative (age strictly beyond the fade window) — a tick landing exactly at
age 2500 ms still retains it with opacity 0. -/
theorem laser_never_persisted (st : WhiteboardState) (ev : DrawEvent) :
    (ev.tool = Tool.laser →
      (commitGesture st ev).elements = st.elements ∧
      (commitGesture st ev).laserElements = mapSet st.laserElements ev.id ⟨ev, 1⟩) ∧
    (ev.type = "laser" ∨ ev.tool = Tool.laser →
      (onRemoteDrawEventHandler st ev).elements = st.elements ∧
      (onRemoteDrawEventHandler st ev).laserElements =
        mapSet st.laserElements ev.id ⟨ev, 1⟩) ∧
    (∀ (entry : LaserEntry) (t : ℚ),
      1 - (t - entry.element.timestamp - fadeStart) / fadeDuration < 0 →
      fadeTickEntry t entry = none) := by
  refine ⟨?_, ?_, ?_⟩
  · intro h
    simp [commitGesture, h]
  · intro h
    simp [onRemoteDrawEventHandler, h]
  · intro entry t h
    have hfs : fadeStart = 1500 := rfl
    have hfd : fadeDuration = 1000 := rfl
    rw [hfs, hfd] at h
    simp only [fadeTickEntry, hfs, hfd]
    rw [if_pos (by linarith)]

/-- Witness for C8 (amended): committing and remotely receiving `laserB`
leaves `stA.elements` untouched, and a tick at `t = 2701` (age 2601 > 2500,
computed opacity negative) removes the entry. -/
theorem laser_never_persisted_witness :
    (commitGesture stA laserB).elements = stA.elements ∧
    (onRemoteDrawEventHandler stA laserB).elements = stA.elements ∧
    fadeTickEntry 2701 ⟨laserB, 1⟩ = none :=
  ⟨((laser_never_persisted stA laserB).1 rfl).1,
   ((laser_never_persisted stA laserB).2.1 (Or.inl rfl)).1,
   (laser_never_persisted stA laserB).2.2 ⟨laserB, 1⟩ 2701
      (by norm_num [laserB, fadeStart, fadeDuration])⟩

/-! ## C4: what the clear event drops -/

/-- Counterexample to C4 as stated: applying the clear handler to a state
with a nonempty selection and an in-flight lasso path empties the element
list but leaves the selection set and the lasso path nonempty. -/
theorem clear_keeps_selection_counterexample :
    (onClearCanvasHandler stSel).elements = [] ∧
    (onClearCanvasHandler stSel).selectedElementIds = ["a"] ∧
    (onClearCanvasHandler stSel).lassoPath = [⟨1, 2⟩] :=
  ⟨rfl, rfl, rfl⟩

/-- C4 (amended): a clear event (local Clear-All round-trips through the
same subscription handler as a remote clear) empties the element list and
changes nothing else: the selection set, the in-flight lasso path and the
laser decay map are left as they were. -/
theorem clear_empties_only_elements (st : WhiteboardState) :
    (onClearCanvasHandler st).elements = [] ∧
    (onClearCanvasHandler st).selectedElementIds = st.selectedElementIds ∧
    (onClearCanvasHandler st).lassoPath = st.lassoPath ∧
    (onClearCanvasHandler st).laserElements = st.laserElements :=
  ⟨rfl, rfl, rfl, rfl⟩

/-! ## C3: the zoom clamp invariant -/

/-- C3: after any zoom update through any input path — wheel, touch pinch,
gesture pinch, the zoom buttons, reset, or the slider (whose values are
restricted to `[0.1, 5]` by the input element's `min`/`max` attributes) —
the zoom lies in `[0.1, 5]`, provided the previous zoom did (the initial
zoom is 1). -/
theorem zoom_clamp_invariant (zoom : ℚ) (h1 : 1 / 10 ≤ zoom) (h2 : zoom ≤ 5)
    (u : ZoomUpdate) :
    1 / 10 ≤ applyZoomUpdate zoom u ∧ applyZoomUpdate zoom u ≤ 5 := by
  cases u with
  | wheel d =>
    exact ⟨le_min (le_max_left _ _) (by norm_num), min_le_right _ _⟩
  | touchPinch s =>
    exact ⟨le_min (le_max_left _ _) (by norm_num), min_le_right _ _⟩
  | gesturePinch ms =>
    exact ⟨le_min (le_max_left _ _) (by norm_num), min_le_right _ _⟩
  | zoomInBtn =>
    refine ⟨le_min (by linarith) (by norm_num), min_le_right _ _⟩
  | zoomOutBtn =>
    refine ⟨le_max_right _ _, max_le (by linarith) (by norm_num)⟩
  | resetBtn =>
    exact ⟨by norm_num [applyZoomUpdate, handleZoomReset, handleZoomChange],
           by norm_num [applyZoomUpdate, handleZoomReset, handleZoomChange]⟩
  | slider v hv1 hv2 =>
    exact ⟨hv1, hv2⟩

/-- Witness for C3: one wheel zoom-out step from zoom 1 stays in range. -/
theorem zoom_clamp_invariant_witness :
    1 / 10 ≤ applyZoomUpdate 1 (ZoomUpdate.wheel 3) ∧
      applyZoomUpdate 1 (ZoomUpdate.wheel 3) ≤ 5 :=
  zoom_clamp_invariant 1 (by norm_num) (by norm_num) (ZoomUpdate.wheel 3)

/-! ## C7: the zoom-toward-anchor fixpoint -/

/-- C7: recomputing the offset as
`offset' = anchor - (anchor - offset) * (newZoom / zoom)` leaves the world
point under the screen anchor at the same screen position; the gesture
variant's pinch-offset computation is the same function; and in particular
with `{offset := (0,0), zoom := 1}` and `newZoom = 2` the world point at
the anchor is fixed. -/
theorem zoom_anchor_fixpoint (anchor offset : Pt) (zoom newZoom : ℚ)
    (hz : zoom ≠ 0) :
    toScreen (toWorld anchor offset zoom)
        (zoomAtOffset anchor offset zoom newZoom) newZoom = anchor ∧
    pinchOffset anchor offset zoom newZoom =
      zoomAtOffset anchor offset zoom newZoom ∧
    toScreen (toWorld anchor ⟨0, 0⟩ 1) (zoomAtOffset anchor ⟨0, 0⟩ 1 2) 2 =
      anchor := by
  obtain ⟨ax, ay⟩ := anchor
  obtain ⟨ox, oy⟩ := offset
  refine ⟨?_, ?_, ?_⟩
  · simp only [toScreen, toWorld, zoomAtOffset, Pt.mk.injEq]
    constructor <;> field_simp
  · simp only [pinchOffset, zoomAtOffset, Pt.mk.injEq]
    constructor <;> field_simp
  · simp only [toScreen, toWorld, zoomAtOffset, Pt.mk.injEq]
    norm_num

/-- Witness for C7: at anchor `(3,4)`, offset `(1,2)`, zoom 1, new zoom 2,
the world point under the anchor maps back to the anchor. -/
theorem zoom_anchor_fixpoint_witness :
    toScreen (toWorld ⟨3, 4⟩ ⟨1, 2⟩ 1) (zoomAtOffset ⟨3, 4⟩ ⟨1, 2⟩ 1 2) 2 =
      (⟨3, 4⟩ : Pt) :=
  (zoom_anchor_fixpoint ⟨3, 4⟩ ⟨1, 2⟩ 1 2 (by norm_num)).1

/-! ## C9: degenerate segment distance -/

/-- C9: on a zero-length segment the projection parameter defaults to `-1`
and is clamped to the start point, so `distanceToLine(P, A, A)` equals the
point-to-point distance from `P` to `A` (both before and after the final
square root). -/
theorem distance_to_degenerate_segment (p a : Pt) :
    distanceToLineSq p a a = distSq p a ∧
    Real.sqrt (distanceToLineSq p a a : ℚ) = Real.sqrt (distSq p a : ℚ) := by
  have h : distanceToLineSq p a a = distSq p a := by
    simp only [distanceToLineSq, distSq]
    norm_num
  exact ⟨h, by rw [h]⟩

/-! ## C6: border-only rectangle hit test -/

/-- C6: the generic/erase-mode hit test on a rectangle element returns
false for a query point strictly inside the box and more than `threshold`
away from every edge. -/
theorem rectangle_interior_not_hit (measure : String → ℚ → ℚ) (point : Pt)
    (el : DrawEvent) (threshold : ℚ) (p0 : Pt) (rest : List Pt)
    (himg : el.imageData = none) (htool : el.tool = Tool.rectangle)
    (hpts : el.points = p0 :: rest)
    (hx1 : jsMin p0.x (rest.getLastD p0).x + threshold < point.x)
    (hx2 : point.x < jsMax p0.x (rest.getLastD p0).x - threshold)
    (hy1 : jsMin p0.y (rest.getLastD p0).y + threshold < point.y)
    (hy2 : point.y < jsMax p0.y (rest.getLastD p0).y - threshold) :
    ¬ isPointNearElement measure point el threshold := by
  intro h
  simp only [isPointNearElement, himg, htool, hpts, Option.isSome_none] at h
  rcases h with ⟨-, h2 | h2 | h2 | h2⟩ <;> linarith

/-- Witness for C6: the center `(5,5)` of the `[0,10] × [0,10]` rectangle,
at threshold 2, is not hit. -/
theorem rectangle_interior_not_hit_witness :
    ¬ isPointNearElement noMeasure ⟨5, 5⟩ rectBig 2 :=
  rectangle_interior_not_hit noMeasure ⟨5, 5⟩ rectBig 2 ⟨0, 0⟩ [⟨10, 10⟩]
    rfl rfl rfl
    (by norm_num [jsMin, List.getLastD])
    (by norm_num [jsMax, List.getLastD])
    (by norm_num [jsMin, List.getLastD])
    (by norm_num [jsMax, List.getLastD])

/-! ## C5: corner-only lasso selection -/

/-- C5: for a lasso polygon with at least 3 vertices, an element with
bounds is selected iff at least one of its four bounding-box corners lies
inside the polygon (by the ray-casting test); in particular the small
rectangle `[4,6] × [3,4]` inside the triangular lasso
`(0,0)-(10,0)-(5,10)` is selected, while the rectangle `[0,10] × [0,10]`,
whose bounds strictly contain the lasso `(4,4)-(6,4)-(5,6)`, is not. -/
theorem lasso_corner_selection :
    (∀ (measure : String → ℚ → ℚ) (el : DrawEvent) (poly : List Pt)
        (b : Bounds), 3 ≤ poly.length →
      getElementBounds measure el = some b →
      (isElementInLasso measure el poly = true ↔
        ∃ c ∈ boundsCorners b, isPointInPolygon c poly = true)) ∧
    isElementInLasso noMeasure rectSmall triBig = true ∧
    isElementInLasso noMeasure rectBig triSmall = false := by
  refine ⟨?_, ?_, ?_⟩
  case refine_2 =>
    norm_num [isElementInLasso, getElementBounds, boundsCorners, triBig,
      rectSmall, isPointInPolygon, rayCastStep, jsMin, jsMax, strTruthy,
      jsOrQ, noMeasure, List.range_succ, List.getD]
  case refine_3 =>
    norm_num [isElementInLasso, getElementBounds, boundsCorners, triSmall,
      rectBig, isPointInPolygon, rayCastStep, jsMin, jsMax, strTruthy,
      jsOrQ, noMeasure, List.range_succ, List.getD]
  case refine_1 =>
    intro measure el poly b h3 hb
    simp only [isElementInLasso, hb]
    rw [if_neg (by omega)]
    simp [List.any_eq_true]

/-- Witness for C5's quantified part: instantiated on `rectSmall` and the
big triangle, the corner test agrees with the selection. -/
theorem lasso_corner_selection_witness :
    isElementInLasso noMeasure rectSmall triBig = true ↔
      ∃ c ∈ boundsCorners ⟨4, 3, 6, 4⟩, isPointInPolygon c triBig = true :=
  lasso_corner_selection.1 noMeasure rectSmall triBig ⟨4, 3, 6, 4⟩
    (by norm_num [triBig])
    (by norm_num [getElementBounds, rectSmall, jsMin, jsMax, strTruthy])

end FreeForm
